import Mathlib

/-!
Verification of the gameap-daemon work-dispatch and command-execution core.

Each definition is a shallow embedding of a function from the Go source
tree: the composite restart command (defaultRestartServer), the composite
command list (commandList), the command factory (LoadServerCommand), the
task scheduler step (runNext and shouldTaskWaitForAnotherToComplete), the
crash recovery pass (failWorkingTaskAfterRestart), the server repository
(FindByID, Save, SaveBulk) and the WinSW process manager (Status, command,
tryFixReinstallService).  Parts of the domain package that are not in the
source tree (task status transitions, server dirty flags, the Result type)
are modelled from the specification and marked as such.
-/

namespace GameapDaemon

/-- Result constant from internal/app/game_server_commands/commands.go. -/
def UnknownResult : Int := -1

/-- Result constant from internal/app/game_server_commands/commands.go. -/
def SuccessResult : Int := 0

/-- Result constant from internal/app/game_server_commands/commands.go. -/
def ErrorResult : Int := 1

/-- Abstract behavior of one sub-command inside a composite command: the Go
error returned by Execute, the result code it ends with when Execute returns
nil, and the bytes it writes to its own output buffer while executing.  A
sub-command that is never executed leaves its buffer empty, so its ReadOutput
returns the empty string. -/
structure SubCommandRun where
  execError : Option String
  execResult : Int
  execOutput : String
deriving DecidableEq

/-- ReadOutput of a sub-command after the composite ran: the buffer content
if the sub-command was executed, empty otherwise (bufCommand starts empty). -/
def subReadOutput (c : SubCommandRun) (executed : Bool) : String :=
  if executed then c.execOutput else ""

/-- The three sub-commands wired into defaultRestartServer. -/
inductive RSub
  | statusCmd
  | stopCmd
  | startCmd
deriving DecidableEq

/-- Observable outcome of defaultRestartServer.restartViaStopStart: the
returned Go error, the complete flag, the result code and the ordered trace
of sub-commands whose Execute was invoked. -/
structure RestartRun where
  err : Option String
  complete : Bool
  result : Int
  trace : List RSub
deriving DecidableEq

/-- Final segment of restartViaStopStart: run the start sub-command and adopt
its result (src/unnamed/part_003, restartViaStopStart). -/
def restartStartPhase (sa : SubCommandRun) (trace : List RSub) : RestartRun :=
  match sa.execError with
  | some e =>
    { err := some e, complete := true, result := UnknownResult,
      trace := trace ++ [RSub.startCmd] }
  | none =>
    { err := none, complete := true, result := sa.execResult,
      trace := trace ++ [RSub.startCmd] }

/-- Embedding of defaultRestartServer.restartViaStopStart
(src/unnamed/part_003): execute Status; if it reports active, execute Stop
and abort on a non-success Stop result; then execute Start and adopt its
result.  The deferred SetComplete always fires, and the result field starts
as UnknownResult from newBaseCommand. -/
def restartViaStopStart (st sp sa : SubCommandRun) : RestartRun :=
  match st.execError with
  | some e =>
    { err := some ("failed to check server status: " ++ e), complete := true,
      result := UnknownResult, trace := [RSub.statusCmd] }
  | none =>
    if st.execResult = SuccessResult then
      match sp.execError with
      | some e =>
        { err := some ("failed to stop server: " ++ e), complete := true,
          result := UnknownResult, trace := [RSub.statusCmd, RSub.stopCmd] }
      | none =>
        if sp.execResult = SuccessResult then
          restartStartPhase sa [RSub.statusCmd, RSub.stopCmd]
        else
          { err := none, complete := true, result := sp.execResult,
            trace := [RSub.statusCmd, RSub.stopCmd] }
    else
      restartStartPhase sa [RSub.statusCmd]

/-- Embedding of defaultRestartServer.ReadOutput for the empty restart-script
case (src/unnamed/part_003): concatenate the status, stop and start
sub-command outputs in that order. -/
def restartReadOutput (st sp sa : SubCommandRun) (r : RestartRun) : String :=
  subReadOutput st (r.trace.contains RSub.statusCmd) ++
  subReadOutput sp (r.trace.contains RSub.stopCmd) ++
  subReadOutput sa (r.trace.contains RSub.startCmd)

end GameapDaemon

namespace GameapDaemon

/-- C1: with cfg.Scripts.Restart empty and no Go error from any sub-command,
restartViaStopStart first executes Status; if Status reports active it
executes Stop, and when the Stop result is not SuccessResult it completes
with the Stop result without executing Start; otherwise it executes Start
and completes with the Start result; ReadOutput is the concatenation of the
status, stop and start outputs in that order (a never-executed sub-command
contributes its empty buffer). -/
theorem restart_via_stop_start_correct (st sp sa : SubCommandRun)
    (hst : st.execError = none) (hsp : sp.execError = none)
    (hsa : sa.execError = none) :
    (restartViaStopStart st sp sa).complete = true ∧
    (restartViaStopStart st sp sa).err = none ∧
    (st.execResult = SuccessResult → sp.execResult ≠ SuccessResult →
      (restartViaStopStart st sp sa).trace = [RSub.statusCmd, RSub.stopCmd] ∧
      (restartViaStopStart st sp sa).result = sp.execResult ∧
      restartReadOutput st sp sa (restartViaStopStart st sp sa) =
        st.execOutput ++ sp.execOutput) ∧
    (st.execResult = SuccessResult → sp.execResult = SuccessResult →
      (restartViaStopStart st sp sa).trace =
        [RSub.statusCmd, RSub.stopCmd, RSub.startCmd] ∧
      (restartViaStopStart st sp sa).result = sa.execResult ∧
      restartReadOutput st sp sa (restartViaStopStart st sp sa) =
        st.execOutput ++ sp.execOutput ++ sa.execOutput) ∧
    (st.execResult ≠ SuccessResult →
      (restartViaStopStart st sp sa).trace = [RSub.statusCmd, RSub.startCmd] ∧
      (restartViaStopStart st sp sa).result = sa.execResult ∧
      restartReadOutput st sp sa (restartViaStopStart st sp sa) =
        st.execOutput ++ sa.execOutput) := by
  by_cases h1 : st.execResult = SuccessResult
  · by_cases h2 : sp.execResult = SuccessResult
    · simp [restartViaStopStart, restartStartPhase, restartReadOutput,
        subReadOutput, hst, hsp, hsa, h1, h2, List.contains]
    · simp [restartViaStopStart, restartStartPhase, restartReadOutput,
        subReadOutput, hst, hsp, hsa, h1, h2, List.contains]
  · simp [restartViaStopStart, restartStartPhase, restartReadOutput,
      subReadOutput, hst, hsa, h1, List.contains]

/-- State of a commandList after Execute
(internal/app/game_server_commands/commands.go): the returned Go error, the
complete flag and result of the baseCommand (which start as false and
UnknownResult), and the number of sub-commands whose Execute was invoked. -/
structure CmdListRun where
  err : Option String
  complete : Bool
  result : Int
  executed : Nat
deriving DecidableEq

/-- Embedding of commandList.Execute: run the sub-commands in order; a Go
error returns immediately, leaving the baseCommand untouched; the first
non-success result is adopted and stops the loop; if all succeed the list
completes with SuccessResult. -/
def commandListExecute : List SubCommandRun → CmdListRun
  | [] => { err := none, complete := true, result := SuccessResult, executed := 0 }
  | c :: rest =>
    match c.execError with
    | some e => { err := some e, complete := false, result := UnknownResult, executed := 1 }
    | none =>
      if c.execResult = SuccessResult then
        let s := commandListExecute rest
        { s with executed := s.executed + 1 }
      else
        { err := none, complete := true, result := c.execResult, executed := 1 }

/-- Embedding of commandList.ReadOutput: concatenate the ReadOutput of every
sub-command in list order; a sub-command among the first `executed` ones
returns its buffer content, the rest return their empty buffers. -/
def commandListReadOutput : List SubCommandRun → Nat → String
  | [], _ => ""
  | _ :: rest, 0 => commandListReadOutput rest 0
  | c :: rest, n + 1 => c.execOutput ++ commandListReadOutput rest n

/-- Concatenation of a list of output strings in order. -/
def concatOutputs : List String → String
  | [] => ""
  | s :: rest => s ++ concatOutputs rest

theorem commandListReadOutput_zero (cs : List SubCommandRun) :
    commandListReadOutput cs 0 = "" := by
  induction cs with
  | nil => rfl
  | cons c rest ih => simpa [commandListReadOutput] using ih

end GameapDaemon

namespace GameapDaemon

/-- C5: for a commandList over sub-commands that return no Go error, Execute
runs the sub-commands in list order, stopping at the first one whose result
is not SuccessResult and adopting its result with no later sub-command
executed; if every sub-command succeeds the list completes with
SuccessResult; ReadOutput concatenates the outputs of the executed
sub-commands in list order (the rest contribute empty buffers). -/
theorem commandList_execute_correct (cs : List SubCommandRun)
    (herr : ∀ c ∈ cs, c.execError = none) :
    ((commandListExecute cs).err = none ∧ (commandListExecute cs).complete = true) ∧
    ((∀ c ∈ cs, c.execResult = SuccessResult) →
      (commandListExecute cs).result = SuccessResult ∧
      (commandListExecute cs).executed = cs.length ∧
      commandListReadOutput cs (commandListExecute cs).executed =
        concatOutputs (cs.map SubCommandRun.execOutput)) ∧
    (∀ pre c post, cs = pre ++ c :: post →
      (∀ x ∈ pre, x.execResult = SuccessResult) →
      c.execResult ≠ SuccessResult →
      (commandListExecute cs).result = c.execResult ∧
      (commandListExecute cs).executed = pre.length + 1 ∧
      commandListReadOutput cs (commandListExecute cs).executed =
        concatOutputs (pre.map SubCommandRun.execOutput) ++ c.execOutput) := by
  induction cs with
  | nil =>
    refine ⟨⟨rfl, rfl⟩, fun _ => ⟨rfl, rfl, rfl⟩, ?_⟩
    intro pre c post heq
    exact absurd heq (by simp)
  | cons a rest ih =>
    have ha : a.execError = none := herr a (by simp)
    have herr' : ∀ c ∈ rest, c.execError = none := fun c hc => herr c (by simp [hc])
    have ih' := ih herr'
    by_cases hres : a.execResult = SuccessResult
    · have hstate : commandListExecute (a :: rest) =
          { commandListExecute rest with
            executed := (commandListExecute rest).executed + 1 } := by
        simp [commandListExecute, ha, hres]
      refine ⟨?_, ?_, ?_⟩
      · rw [hstate]; exact ⟨ih'.1.1, ih'.1.2⟩
      · intro hall
        have h2 := ih'.2.1 (fun c hc => hall c (by simp [hc]))
        refine ⟨by rw [hstate]; exact h2.1, by rw [hstate]; simp [h2.2.1], ?_⟩
        rw [hstate]
        show commandListReadOutput (a :: rest) ((commandListExecute rest).executed + 1) = _
        simp only [commandListReadOutput, List.map, concatOutputs]
        rw [h2.2.2]
      · intro pre c post heq hpre hc
        cases pre with
        | nil =>
          obtain ⟨hac, -⟩ := (by simpa using heq : a = c ∧ rest = post)
          have : c.execResult = SuccessResult := by rw [← hac]; exact hres
          exact absurd this hc
        | cons x pre' =>
          obtain ⟨hax, htail⟩ :=
            (by simpa using heq : a = x ∧ rest = pre' ++ c :: post)
          have h3 := ih'.2.2 pre' c post htail (fun y hy => hpre y (by simp [hy])) hc
          refine ⟨by rw [hstate]; exact h3.1, by rw [hstate]; simp [h3.2.1], ?_⟩
          rw [hstate]

          show commandListReadOutput (a :: rest) ((commandListExecute rest).executed + 1) = _
          simp only [commandListReadOutput, List.map, concatOutputs]
          rw [h3.2.2, hax]
          simp [String.append_assoc]
    · have hstate : commandListExecute (a :: rest) =
          { err := none, complete := true, result := a.execResult, executed := 1 } := by
        simp [commandListExecute, ha, hres]
      refine ⟨by rw [hstate]; exact ⟨rfl, rfl⟩, ?_, ?_⟩
      · intro hall
        exact absurd (hall a (by simp)) hres
      · intro pre c post heq hpre hc
        cases pre with
        | nil =>
          obtain ⟨hac, -⟩ := (by simpa using heq : a = c ∧ rest = post)
          refine ⟨by rw [hstate, hac], by simp [hstate], ?_⟩
          rw [hstate]
          show commandListReadOutput (a :: rest) 1 = _
          simp only [commandListReadOutput, commandListReadOutput_zero,
            concatOutputs, List.map]
          rw [hac]
          simp
        | cons x pre' =>
          obtain ⟨hax, -⟩ :=
            (by simpa using heq : a = x ∧ rest = pre' ++ c :: post)
          have : a.execResult = SuccessResult := by rw [hax]; exact hpre x (by simp)
          exact absurd this hres

/-- Witness for C5 at a concrete list: success then failure then an
unexecuted trailing sub-command. -/
theorem commandList_execute_correct_witness :
    (commandListExecute [⟨none, 0, "a"⟩, ⟨none, 7, "b"⟩, ⟨none, 0, "c"⟩]).result = 7 ∧
    (commandListExecute [⟨none, 0, "a"⟩, ⟨none, 7, "b"⟩, ⟨none, 0, "c"⟩]).executed = 2 ∧
    commandListReadOutput [⟨none, 0, "a"⟩, ⟨none, 7, "b"⟩, ⟨none, 0, "c"⟩]
      (commandListExecute [⟨none, 0, "a"⟩, ⟨none, 7, "b"⟩, ⟨none, 0, "c"⟩]).executed =
      concatOutputs [("a" : String)] ++ "b" := by
  have h := commandList_execute_correct
    [⟨none, 0, "a"⟩, ⟨none, 7, "b"⟩, ⟨none, 0, "c"⟩] (by decide)
  have h3 := h.2.2 [⟨none, 0, "a"⟩] ⟨none, 7, "b"⟩ [⟨none, 0, "c"⟩] rfl
    (by decide) (by decide)
  exact ⟨h3.1, h3.2.1, h3.2.2⟩

/-- C10: when a sub-command of a commandList returns a Go error after a run
of error-free successful sub-commands, Execute propagates that error
immediately, executes no later sub-command, and leaves the composite not
complete with result UnknownResult. -/
theorem commandList_error_leaves_incomplete (pre : List SubCommandRun)
    (c : SubCommandRun) (post : List SubCommandRun) (e : String)
    (hpreErr : ∀ x ∈ pre, x.execError = none)
    (hpreRes : ∀ x ∈ pre, x.execResult = SuccessResult)
    (hc : c.execError = some e) :
    (commandListExecute (pre ++ c :: post)).err = some e ∧
    (commandListExecute (pre ++ c :: post)).complete = false ∧
    (commandListExecute (pre ++ c :: post)).result = UnknownResult ∧
    (commandListExecute (pre ++ c :: post)).executed = pre.length + 1 := by
  induction pre with
  | nil => simp [commandListExecute, hc]
  | cons x pre' ih =>
    have hx : x.execError = none := hpreErr x (by simp)
    have hxr : x.execResult = SuccessResult := hpreRes x (by simp)
    have ih' := ih (fun y hy => hpreErr y (by simp [hy]))
      (fun y hy => hpreRes y (by simp [hy]))
    simp only [List.cons_append, commandListExecute, hx, hxr, if_pos rfl]
    exact ⟨ih'.1, ih'.2.1, ih'.2.2.1, by simp [ih'.2.2.2]⟩

/-- Witness for C10 at a concrete list: one successful sub-command followed
by an erroring one and an unexecuted trailing one. -/
theorem commandList_error_leaves_incomplete_witness :
    (commandListExecute [⟨none, 0, "a"⟩, ⟨some "boom", 0, "b"⟩, ⟨none, 0, "c"⟩]).err
        = some "boom" ∧
    (commandListExecute [⟨none, 0, "a"⟩, ⟨some "boom", 0, "b"⟩, ⟨none, 0, "c"⟩]).complete
        = false ∧
    (commandListExecute [⟨none, 0, "a"⟩, ⟨some "boom", 0, "b"⟩, ⟨none, 0, "c"⟩]).result
        = UnknownResult ∧
    (commandListExecute [⟨none, 0, "a"⟩, ⟨some "boom", 0, "b"⟩, ⟨none, 0, "c"⟩]).executed
        = 2 :=
  commandList_error_leaves_incomplete [⟨none, 0, "a"⟩] ⟨some "boom", 0, "b"⟩
    [⟨none, 0, "c"⟩] "boom" (by decide) (by decide) rfl

/-- Witness for C1 at concrete sub-command behaviors: an active server whose
stop and start succeed. -/
theorem restart_via_stop_start_correct_witness :
    (restartViaStopStart ⟨none, 0, "status..n"⟩ ⟨none, 0, "stop..n"⟩
        ⟨none, 0, "start..n"⟩).result = (0 : Int) ∧
    restartReadOutput ⟨none, 0, "status..n"⟩ ⟨none, 0, "stop..n"⟩
        ⟨none, 0, "start..n"⟩
        (restartViaStopStart ⟨none, 0, "status..n"⟩ ⟨none, 0, "stop..n"⟩
          ⟨none, 0, "start..n"⟩) = "status..n" ++ "stop..n" ++ "start..n" := by
  have h := restart_via_stop_start_correct ⟨none, 0, "status..n"⟩
    ⟨none, 0, "stop..n"⟩ ⟨none, 0, "start..n"⟩ rfl rfl rfl
  exact ⟨(h.2.2.2.1 rfl rfl).2.1, (h.2.2.2.1 rfl rfl).2.2⟩

/-- ServerCommand verbs of the domain package, as enumerated by the switch
in ServerCommandFactory.LoadServerCommand. -/
inductive ServerCommand
  | start
  | pause
  | unpause
  | stop
  | kill
  | restart
  | status
  | install
  | update
  | reinstall
  | delete
deriving DecidableEq

/-- Shape of the command value returned by LoadServerCommand for each verb
(internal/app/game_server_commands/commands.go). -/
inductive LoadedCommand
  | startServer
  | stopServer
  | restartServer
  | statusServer
  | installServer
  | updateServer
  | reinstallList
  | deleteServer
  | notImplemented (message : String) (resultCode : Int)
deriving DecidableEq

/-- Embedding of ServerCommandFactory.LoadServerCommand.  In the Go switch,
`case domain.Pause:` has an empty body and Go switch cases do not fall
through, so for Pause the switch completes without returning and control
reaches the trailing `return nil`; only Unpause reaches
newNotImplementedCommand. -/
def loadServerCommand : ServerCommand → Option LoadedCommand
  | ServerCommand.start => some LoadedCommand.startServer
  | ServerCommand.stop => some LoadedCommand.stopServer
  | ServerCommand.kill => some LoadedCommand.stopServer
  | ServerCommand.restart => some LoadedCommand.restartServer
  | ServerCommand.status => some LoadedCommand.statusServer
  | ServerCommand.install => some LoadedCommand.installServer
  | ServerCommand.update => some LoadedCommand.updateServer
  | ServerCommand.reinstall => some LoadedCommand.reinstallList
  | ServerCommand.delete => some LoadedCommand.deleteServer
  | ServerCommand.pause => none
  | ServerCommand.unpause =>
      some (LoadedCommand.notImplemented "not implemented command" ErrorResult)

/-- A constructed nilCommand
(internal/app/game_server_commands/commands.go): the stored message, the
stored result code and the embedded bufCommand output buffer.  The buffer is
optional because the field holds an io.ReadWriter interface that may be left
nil. -/
structure NilCommand where
  message : String
  resultCode : Int
  output : Option String
deriving DecidableEq

/-- Embedding of newNotImplementedCommand: it sets the baseCommand, the
message and ErrorResult, but never initializes the bufCommand output, which
is therefore a nil io.ReadWriter. -/
def newNotImplementedCommand : NilCommand :=
  { message := "not implemented command", resultCode := ErrorResult, output := none }

/-- State of a nilCommand after Execute: the complete flag, the result, the
output buffer, and whether the run ended in a run-time panic. -/
structure NilCommandRun where
  complete : Bool
  result : Int
  output : Option String
  panicked : Bool
deriving DecidableEq

/-- Embedding of nilCommand.Execute: SetComplete and SetResult run first;
the message write then panics when the output buffer is a nil io.ReadWriter,
so for a nil buffer the command is left complete with its result code but no
message is ever written. -/
def nilCommandExecute (n : NilCommand) : NilCommandRun :=
  match n.output with
  | none =>
    { complete := true, result := n.resultCode, output := none, panicked := true }
  | some b =>
    { complete := true, result := n.resultCode, output := some (b ++ n.message),
      panicked := false }

end GameapDaemon

namespace GameapDaemon

/-- C3: evaluation of the factory at Pause and Unpause.  The claim says both
verbs return a non-nil no-op command whose Execute writes the message, sets
IsComplete and yields ErrorResult.  In the code, Pause returns nil (the
empty `case domain.Pause:` body means the Go switch completes and control
reaches the trailing `return nil`), and the Unpause command sets IsComplete
and ErrorResult but then panics writing the message to its
never-initialized nil output buffer, so the message is not written. -/
theorem loadServerCommand_pause_unpause :
    loadServerCommand ServerCommand.pause = none ∧
    loadServerCommand ServerCommand.unpause =
      some (LoadedCommand.notImplemented "not implemented command" ErrorResult) ∧
    newNotImplementedCommand.output = none ∧
    (nilCommandExecute newNotImplementedCommand).complete = true ∧
    (nilCommandExecute newNotImplementedCommand).result = ErrorResult ∧
    (nilCommandExecute newNotImplementedCommand).panicked = true ∧
    (nilCommandExecute newNotImplementedCommand).output = none :=
  ⟨rfl, rfl, rfl, rfl, rfl, rfl, rfl⟩

/-- GDTask status values from the domain package. -/
inductive GDTaskStatus
  | waiting
  | working
  | success
  | error
  | canceled
deriving DecidableEq

/-- Modelled from the spec: legal GDTask status transitions are
Waiting to Working, Working to Success, Working to Error, Working to
Canceled, Waiting to Canceled and Waiting to Error; all others are rejected
with InvalidStatusTransition.  (The domain package is not in the source
tree.) -/
def legalTransition : GDTaskStatus → GDTaskStatus → Bool
  | GDTaskStatus.waiting, GDTaskStatus.working => true
  | GDTaskStatus.working, GDTaskStatus.success => true
  | GDTaskStatus.working, GDTaskStatus.error => true
  | GDTaskStatus.working, GDTaskStatus.canceled => true
  | GDTaskStatus.waiting, GDTaskStatus.canceled => true
  | GDTaskStatus.waiting, GDTaskStatus.error => true
  | _, _ => false

/-- The parts of a GDTask the scheduler claims depend on: identity, the
RunAfterID dependency (0 meaning none) and the status. -/
structure GDTask where
  id : Nat
  runAfterID : Nat
  status : GDTaskStatus
deriving DecidableEq

/-- Modelled from the spec: GDTask.IsComplete holds exactly on the terminal
statuses Success, Error and Canceled.  (The domain package is not in the
source tree.) -/
def GDTask.isComplete (t : GDTask) : Bool :=
  match t.status with
  | GDTaskStatus.success => true
  | GDTaskStatus.error => true
  | GDTaskStatus.canceled => true
  | _ => false

/-- Modelled from the spec: GDTask.SetStatus applies a legal transition and
fails with InvalidStatusTransition otherwise. -/
def GDTask.setStatus (t : GDTask) (s : GDTaskStatus) : Except String GDTask :=
  if legalTransition t.status s then Except.ok { t with status := s }
  else Except.error "InvalidStatusTransition"

/-- Embedding of taskQueue.findByID
(internal/app/gdaemon_scheduler/task_manager.go): linear scan for the first
task with the given id. -/
def findByID (q : List GDTask) (id : Nat) : Option GDTask :=
  q.find? (fun t => t.id == id)

/-- Embedding of TaskManager.shouldTaskWaitForAnotherToComplete: a task with
a positive RunAfterID waits while the predecessor is found in the queue and
is not complete; if the predecessor is absent the task does not wait. -/
def shouldTaskWaitForAnotherToComplete (q : List GDTask) (t : GDTask) : Bool :=
  if 0 < t.runAfterID then
    match findByID q t.runAfterID with
    | none => false
    | some other => !other.isComplete
  else false

/-- Status of the head task after one TaskManager.runNext step, embedding
the status effects of runNext, executeTask, proceedTask and failTask.  `q`
is the queue as searched by the dependency check (after the Next rotation;
a permutation of the queue before the step).  `dispatchOk` is false when
executeTask returns an error (unmapped verb), in which case runNext calls
failTask on the now-Working task; `inflight` is the observation of the
in-flight command for a Working task (present or not, and if present its
IsComplete flag and Result). -/
def runNextHeadStatus (q : List GDTask) (t : GDTask) (dispatchOk : Bool)
    (inflight : Option (Bool × Int)) : GDTaskStatus :=
  if shouldTaskWaitForAnotherToComplete q t then t.status
  else
    match t.status with
    | GDTaskStatus.waiting =>
      if dispatchOk then GDTaskStatus.working else GDTaskStatus.error
    | GDTaskStatus.working =>
      match inflight with
      | none => GDTaskStatus.error
      | some (c, res) =>
        if c then
          if res = SuccessResult then GDTaskStatus.success else GDTaskStatus.error
        else GDTaskStatus.working
    | s => s

end GameapDaemon

namespace GameapDaemon

/-- C2: a task with positive RunAfterID is never transitioned from Waiting
to Working by a worker step while a task with that id is in the queue and is
not complete — its status is left unchanged; when no task with that id is in
the queue, the dependency check passes and a Waiting task proceeds to
Working (given the dispatch itself raises no error). -/
theorem run_after_dependency_guard (q : List GDTask) (t : GDTask)
    (d : Bool) (inflight : Option (Bool × Int)) (hr : 0 < t.runAfterID) :
    (∀ p, findByID q t.runAfterID = some p → p.isComplete = false →
      runNextHeadStatus q t d inflight = t.status ∧
      (t.status = GDTaskStatus.waiting →
        runNextHeadStatus q t d inflight ≠ GDTaskStatus.working)) ∧
    (findByID q t.runAfterID = none → t.status = GDTaskStatus.waiting →
      d = true → runNextHeadStatus q t d inflight = GDTaskStatus.working) := by
  constructor
  · intro p hp hpc
    have hwait : shouldTaskWaitForAnotherToComplete q t = true := by
      simp [shouldTaskWaitForAnotherToComplete, hr, hp, hpc]
    have hstay : runNextHeadStatus q t d inflight = t.status := by
      simp [runNextHeadStatus, hwait]
    exact ⟨hstay, fun hw => by simp [hstay, hw]⟩
  · intro hnone hw hd
    have hwait : shouldTaskWaitForAnotherToComplete q t = false := by
      simp [shouldTaskWaitForAnotherToComplete, hr, hnone]
    simp [runNextHeadStatus, hwait, hw, hd]

/-- Witness for C2: task 2 waits on task 1 while task 1 is Working in the
queue, and proceeds when task 1 is absent. -/
theorem run_after_dependency_guard_witness :
    runNextHeadStatus [⟨1, 0, GDTaskStatus.working⟩, ⟨2, 1, GDTaskStatus.waiting⟩]
      ⟨2, 1, GDTaskStatus.waiting⟩ true none = GDTaskStatus.waiting ∧
    runNextHeadStatus [⟨2, 1, GDTaskStatus.waiting⟩]
      ⟨2, 1, GDTaskStatus.waiting⟩ true none = GDTaskStatus.working := by
  constructor
  · exact (run_after_dependency_guard
      [⟨1, 0, GDTaskStatus.working⟩, ⟨2, 1, GDTaskStatus.waiting⟩]
      ⟨2, 1, GDTaskStatus.waiting⟩ true none (by decide)).1
      ⟨1, 0, GDTaskStatus.working⟩ (by decide) (by decide) |>.1
  · exact (run_after_dependency_guard [⟨2, 1, GDTaskStatus.waiting⟩]
      ⟨2, 1, GDTaskStatus.waiting⟩ true none (by decide)).2 (by decide) rfl rfl

/-- Message appended by crash recovery
(internal/app/gdaemon_scheduler/task_manager.go). -/
def restartFailMessage : String := "Working task failed. GameAP Daemon was restarted."

/-- Embedding of TaskManager.failWorkingTaskAfterRestart over the list of
tasks the task source reports as Working: each task is transitioned to
Error (skipping the rest of its iteration when SetStatus fails), the restart
message is appended through the repository, and the task is saved.  Returns
the updated tasks, the AppendOutput calls (task id and text) and the Save
calls, in order. -/
def failWorkingTaskAfterRestart :
    List GDTask → List GDTask × List (Nat × String) × List GDTask
  | [] => ([], [], [])
  | t :: rest =>
    let (ts, apps, saves) := failWorkingTaskAfterRestart rest
    match t.setStatus GDTaskStatus.error with
    | Except.error _ => (t :: ts, apps, saves)
    | Except.ok updated =>
      (updated :: ts, (updated.id, restartFailMessage) :: apps, updated :: saves)

end GameapDaemon

namespace GameapDaemon

/-- C6: on Run entry, every task the task source reports as Working is
transitioned to Error (the transition is legal, so SetStatus succeeds), the
restart message is appended to its output through the repository, and the
updated task is persisted back. -/
theorem fail_working_tasks_on_restart (ws : List GDTask)
    (hw : ∀ t ∈ ws, t.status = GDTaskStatus.working) :
    failWorkingTaskAfterRestart ws =
      (ws.map (fun t => { t with status := GDTaskStatus.error }),
       ws.map (fun t => (t.id, restartFailMessage)),
       ws.map (fun t => { t with status := GDTaskStatus.error })) := by
  induction ws with
  | nil => rfl
  | cons t rest ih =>
    have ht : t.status = GDTaskStatus.working := hw t (by simp)
    have hrest := ih (fun x hx => hw x (by simp [hx]))
    simp only [failWorkingTaskAfterRestart, hrest, GDTask.setStatus,
      legalTransition, ht, List.map]
    rfl

/-- Witness for C6 at two concrete Working tasks. -/
theorem fail_working_tasks_on_restart_witness :
    failWorkingTaskAfterRestart
      [⟨4, 0, GDTaskStatus.working⟩, ⟨9, 0, GDTaskStatus.working⟩] =
      ([⟨4, 0, GDTaskStatus.error⟩, ⟨9, 0, GDTaskStatus.error⟩],
       [(4, restartFailMessage), (9, restartFailMessage)],
       [⟨4, 0, GDTaskStatus.error⟩, ⟨9, 0, GDTaskStatus.error⟩]) :=
  fail_working_tasks_on_restart
    [⟨4, 0, GDTaskStatus.working⟩, ⟨9, 0, GDTaskStatus.working⟩] (by decide)

/-- Modelled from the spec: the domain Result type is an integer with
SuccessResult = 0 (the domain package is not in the source tree; the WinSW
code casts raw exit codes to it). -/
def domainSuccessResult : Int := 0

/-- Modelled from the spec: the domain ErrorResult constant, 1. -/
def domainErrorResult : Int := 1

/-- Constant from internal/processmanager/winsw.go. -/
def errorCodeCannotStart : Int := 1053

/-- Constant from internal/processmanager/winsw.go: a status exit code of 0
means the service is not active. -/
def exitCodeStatusNotActive : Int := 0

/-- Constant from internal/processmanager/winsw.go: a status exit code of 1
means the service is active. -/
def exitCodeStatusActive : Int := 1

/-- Response of one executor invocation: the native exit code and an
optional Go error. -/
structure ExecResponse where
  code : Int
  err : Option String
deriving DecidableEq

/-- Embedding of WinSW.runWinSWCommand: the raw exit code of the winsw
invocation is cast to domain.Result unchanged and the executor error is
passed through. -/
def runWinSWCommand (r : ExecResponse) : Int × Option String :=
  (r.code, r.err)

/-- Embedding of WinSW.Status: Error when the service file is absent, Error
on an executor error, Error for exit code 0 (not active), Success for exit
code 1 (active), Error for any unexpected code. -/
def winswStatus (serviceFileFound : Bool) (r : ExecResponse) :
    Int × Option String :=
  if serviceFileFound = false then (domainErrorResult, none)
  else
    match r.err with
    | some e => (domainErrorResult, some ("failed to get daemon status: " ++ e))
    | none =>
      if r.code = exitCodeStatusNotActive then (domainErrorResult, none)
      else if r.code = exitCodeStatusActive then (domainSuccessResult, none)
      else (domainErrorResult, none)

/-- Outcome of WinSW.command: the returned result, the returned Go error and
the ordered trace of winsw sub-commands invoked through runWinSWCommand. -/
structure WinSWCommandRun where
  result : Int
  err : Option String
  trace : List String
deriving DecidableEq

/-- Embedding of WinSW.tryFixReinstallService over an executor oracle `exec`
indexed by invocation count: uninstall at index i (result and error only
logged), install at index i + 1; an install exit code other than Success
yields an error, otherwise Success. -/
def tryFixReinstallService (exec : Nat → ExecResponse) (i : Nat) :
    Int × Option String :=
  let ri := exec (i + 1)
  if ri.code = domainSuccessResult then (domainSuccessResult, none)
  else (domainErrorResult, some "failed to install service")

/-- Final phase of WinSW.command: run the requested verb at invocation index
i; when the verb is start and its exit code is 1053, run exactly one
reinstall-retry (uninstall, install, then the verb again) and return the
retried result. -/
def winswVerbPhase (verb : String) (exec : Nat → ExecResponse) (i : Nat)
    (trace : List String) : WinSWCommandRun :=
  let r := exec i
  match r.err with
  | some e =>
    { result := domainErrorResult, err := some ("failed to exec command: " ++ e),
      trace := trace ++ [verb] }
  | none =>
    if r.code = errorCodeCannotStart ∧ verb = "start" then
      let fix := tryFixReinstallService exec (i + 1)
      match fix.2 with
      | some e =>
        { result := domainErrorResult,
          err := some ("failed to try fix by reinstalling service: " ++ e),
          trace := trace ++ [verb, "uninstall", "install"] }
      | none =>
        let rr := exec (i + 3)
        match rr.err with
        | some e =>
          { result := domainErrorResult,
            err := some ("failed to exec command: " ++ e),
            trace := trace ++ [verb, "uninstall", "install", verb] }
        | none =>
          { result := rr.code, err := none,
            trace := trace ++ [verb, "uninstall", "install", verb] }
    else { result := r.code, err := none, trace := trace ++ [verb] }

/-- Embedding of WinSW.command (internal/processmanager/winsw.go): check the
user, write the service descriptor (`mkSvc` reports an error or whether the
descriptor is new), install a new service or refresh an existing one
(falling back to install), then run the requested verb. -/
def winswCommand (verb : String) (userErr : Option String)
    (mkSvc : Except String Bool) (exec : Nat → ExecResponse) : WinSWCommandRun :=
  match userErr with
  | some e =>
    { result := domainErrorResult, err := some ("failed to check user: " ++ e),
      trace := [] }
  | none =>
    match mkSvc with
    | Except.error e =>
      { result := domainErrorResult, err := some ("failed to make service: " ++ e),
        trace := [] }
    | Except.ok true =>
      let r0 := exec 0
      match r0.err with
      | some e =>
        { result := domainErrorResult,
          err := some ("failed to install service: " ++ e), trace := ["install"] }
      | none =>
        if r0.code = domainSuccessResult then winswVerbPhase verb exec 1 ["install"]
        else
          { result := domainErrorResult, err := some "failed to install service",
            trace := ["install"] }
    | Except.ok false =>
      let r0 := exec 0
      match r0.err with
      | some e =>
        { result := domainErrorResult,
          err := some ("failed to refresh service: " ++ e), trace := ["refresh"] }
      | none =>
        if r0.code = domainSuccessResult then winswVerbPhase verb exec 1 ["refresh"]
        else
          let r1 := exec 1
          match r1.err with
          | some e =>
            { result := domainErrorResult,
              err := some ("failed to install service: " ++ e),
              trace := ["refresh", "install"] }
          | none =>
            if r1.code = domainSuccessResult then
              winswVerbPhase verb exec 2 ["refresh", "install"]
            else
              { result := domainErrorResult,
                err := some "failed to refresh and install service",
                trace := ["refresh", "install"] }

end GameapDaemon

namespace GameapDaemon

/-- C7 counterexample: on the service-manager variant, the Status operation
maps native exit code 0 to ErrorResult and native exit code 1 to
SuccessResult, contradicting the claim that exit code 0 maps to Success and
every non-zero exit code maps to Error. -/
theorem winsw_status_mapping_counterexample :
    winswStatus true ⟨0, none⟩ = (domainErrorResult, none) ∧
    winswStatus true ⟨1, none⟩ = (domainSuccessResult, none) ∧
    domainErrorResult ≠ domainSuccessResult := by
  refine ⟨rfl, rfl, by decide⟩

/-- C7 amended: for WinSW operations run through runWinSWCommand the native
exit code is returned as the Result unchanged (so 0 maps to Success), while
the Status operation inverts the mapping: it reports Success exactly when
the service file exists and the exit code is 1 (active); exit code 0 (not
active) and every other code map to Error. -/
theorem winsw_exit_code_mapping (serviceFileFound : Bool) (r : ExecResponse)
    (h : r.err = none) :
    (runWinSWCommand r).1 = r.code ∧
    ((winswStatus serviceFileFound r).1 = domainSuccessResult ↔
      serviceFileFound = true ∧ r.code = exitCodeStatusActive) := by
  refine ⟨rfl, ?_⟩
  cases serviceFileFound with
  | false => simp [winswStatus, domainErrorResult, domainSuccessResult]
  | true =>
    by_cases h0 : r.code = exitCodeStatusNotActive
    · simp [winswStatus, h, h0, exitCodeStatusNotActive, exitCodeStatusActive,
        domainErrorResult, domainSuccessResult]
    · by_cases h1 : r.code = exitCodeStatusActive
      · simp [winswStatus, h, h0, h1, exitCodeStatusNotActive,
          exitCodeStatusActive, domainErrorResult, domainSuccessResult]
      · simp [winswStatus, h, h0, h1, domainErrorResult, domainSuccessResult]

/-- Witness for the amended C7: an existing service with status exit code 1
reports Success, and a verb run through runWinSWCommand with exit code 0
returns 0. -/
theorem winsw_exit_code_mapping_witness :
    (winswStatus true ⟨1, none⟩).1 = domainSuccessResult ∧
    (runWinSWCommand ⟨0, none⟩).1 = 0 :=
  ⟨(winsw_exit_code_mapping true ⟨1, none⟩ rfl).2.mpr ⟨rfl, rfl⟩,
   (winsw_exit_code_mapping true ⟨0, none⟩ rfl).1⟩

end GameapDaemon

namespace GameapDaemon

/-- C8: on the service-manager supervisor (new service descriptor, install
succeeding, no executor errors), the reinstall-retry runs exactly when the
verb is start and its exit code is 1053: the trace then contains the single
retry sequence uninstall, install, start, and the result of the retried
start is returned — for every retried exit code, including 1053 again, so no
second retry occurs; for any other verb or exit code the verb result is
returned directly with no retry. -/
theorem winsw_start_1053_single_retry (verb : String)
    (exec : Nat → ExecResponse) (hnoerr : ∀ n, (exec n).err = none)
    (hinstall : (exec 0).code = domainSuccessResult) :
    ((exec 1).code = errorCodeCannotStart → verb = "start" →
      (exec 3).code = domainSuccessResult →
      winswCommand verb none (Except.ok true) exec =
        { result := (exec 4).code, err := none,
          trace := ["install", "start", "uninstall", "install", "start"] }) ∧
    (¬((exec 1).code = errorCodeCannotStart ∧ verb = "start") →
      winswCommand verb none (Except.ok true) exec =
        { result := (exec 1).code, err := none, trace := ["install", verb] }) := by
  constructor
  · intro hc hv hfix
    subst hv
    simp [winswCommand, winswVerbPhase, tryFixReinstallService,
      hnoerr 0, hnoerr 1, hnoerr 4, hinstall, hc, hfix]
  · intro hneg
    simp [winswCommand, winswVerbPhase, hnoerr 0, hnoerr 1, hinstall, hneg]

/-- Executor oracle for the C8 witness: the start verb exits with 1053 both
times, the install steps succeed. -/
def winswExecWitness : Nat → ExecResponse := fun n =>
  if n = 1 ∨ n = 4 then ⟨1053, none⟩ else ⟨0, none⟩

/-- Witness for C8: the retried start again exits 1053 and that result is
returned after exactly one reinstall-retry. -/
theorem winsw_start_1053_single_retry_witness :
    winswCommand "start" none (Except.ok true) winswExecWitness =
      { result := 1053, err := none,
        trace := ["install", "start", "uninstall", "install", "start"] } := by
  have h := (winsw_start_1053_single_retry "start" winswExecWitness
    (by intro n; by_cases hn : n = 1 ∨ n = 4 <;> simp [winswExecWitness, hn])
    (by decide)).1 (by decide) rfl (by decide)
  simpa [winswExecWitness] using h

/-- Modelled from the spec: the Server aggregate (domain package not in the
source tree) with the fields written by server.Set in the repository merge,
and the two dirty flags the daemon tracks, installationStatus and status.
Timestamps are integers, 0 standing for the zero time. -/
structure Server where
  id : Int
  enabled : Bool
  installationStatus : Int
  blocked : Bool
  name : String
  uuid : String
  uuidShort : String
  game : String
  gameMod : String
  ip : String
  connectPort : Int
  queryPort : Int
  rconPort : Int
  rconPassword : String
  dir : String
  user : String
  startCommand : String
  stopCommand : String
  forceStopCommand : String
  restartCommand : String
  processActive : Bool
  lastStatusCheck : Int
  vars : List (String × String)
  settings : List (String × String)
  updatedAt : Int
  modifiedInstallationStatus : Bool
  modifiedStatus : Bool
deriving DecidableEq

/-- Modelled from the spec: Server.IsModified — some dirty flag is set. -/
def Server.isModified (s : Server) : Bool :=
  s.modifiedInstallationStatus || s.modifiedStatus

/-- Modelled from the spec: Server.UnmarkModifiedFlag clears the dirty
flags. -/
def Server.unmarkModifiedFlag (s : Server) : Server :=
  { s with modifiedInstallationStatus := false, modifiedStatus := false }

/-- Body of the PUT/PATCH server update (serverSaveStruct in
internal/app/repositories/server_repository.go). -/
structure ServerSaveStruct where
  installationStatus : Option Int
  lastProcessCheck : Option Int
  id : Int
  processActive : Nat
deriving DecidableEq

/-- Embedding of saveStructFromServer: the body carries installationStatus
only when its flag is dirty, process_active 1 only for an active server with
a dirty status flag, and last_process_check only for a non-zero check time
with a dirty status flag. -/
def saveStructFromServer (s : Server) : ServerSaveStruct :=
  { id := s.id,
    processActive := if s.processActive = true ∧ s.modifiedStatus = true then 1 else 0,
    installationStatus :=
      if s.modifiedInstallationStatus = true then some s.installationStatus else none,
    lastProcessCheck :=
      if s.lastStatusCheck ≠ 0 ∧ s.modifiedStatus = true then some s.lastStatusCheck
      else none }

/-- Response of one API request: a transport error or a status code. -/
structure APIResponse where
  err : Option String
  statusCode : Int
deriving DecidableEq

/-- Outcome of apiServerRepo.Save: the server as left by the call, the
serialized body, and the returned Go error. -/
structure SaveRun where
  server : Server
  body : ServerSaveStruct
  err : Option String
deriving DecidableEq

/-- Embedding of apiServerRepo.Save: the body is computed from the current
dirty flags, then UnmarkModifiedFlag clears them, and only then the PUT
request is issued; a transport error or a non-200 status is returned as an
error (with the flags already cleared). -/
def apiServerRepoSave (s : Server) (resp : APIResponse) : SaveRun :=
  { server := s.unmarkModifiedFlag,
    body := saveStructFromServer s,
    err :=
      match resp.err with
      | some e => some ("failed to saving server: " ++ e)
      | none =>
        if resp.statusCode = 200 then none
        else some "invalid response from api" }

/-- Outcome of apiServerRepo.SaveBulk. -/
structure SaveBulkRun where
  servers : List Server
  bodies : List ServerSaveStruct
  err : Option String
deriving DecidableEq

/-- Embedding of apiServerRepo.SaveBulk: for each server the body is
computed and UnmarkModifiedFlag is called, before the single PATCH request
is issued; a transport error or a non-200 status is returned as an error
(with every flag already cleared). -/
def apiServerRepoSaveBulk (servers : List Server) (resp : APIResponse) :
    SaveBulkRun :=
  { servers := servers.map Server.unmarkModifiedFlag,
    bodies := servers.map saveStructFromServer,
    err :=
      match resp.err with
      | some e => some ("failed to bulk saving servers: " ++ e)
      | none =>
        if resp.statusCode = 200 then none
        else some "invalid response from api" }

/-- A server with both dirty flags set, for evaluating Save on a failing
flush. -/
def dirtyServer : Server :=
  { id := 1, enabled := true, installationStatus := 1, blocked := false,
    name := "srv", uuid := "u", uuidShort := "us", game := "g", gameMod := "gm",
    ip := "127.0.0.1", connectPort := 27015, queryPort := 27016, rconPort := 27017,
    rconPassword := "", dir := "d", user := "gameap",
    startCommand := "", stopCommand := "", forceStopCommand := "", restartCommand := "",
    processActive := true, lastStatusCheck := 7, vars := [], settings := [],
    updatedAt := 0, modifiedInstallationStatus := true, modifiedStatus := true }

end GameapDaemon

namespace GameapDaemon

/-- C4 counterexample: a server with both dirty flags set, saved against a
flush that returns status 500, comes back with its dirty flags cleared even
though the flush failed — UnmarkModifiedFlag runs before the request, not
upon success. -/
theorem save_clears_flags_on_failed_flush :
    dirtyServer.isModified = true ∧
    (apiServerRepoSave dirtyServer ⟨none, 500⟩).err ≠ none ∧
    (apiServerRepoSave dirtyServer ⟨none, 500⟩).server.isModified = false ∧
    (apiServerRepoSaveBulk [dirtyServer] ⟨none, 500⟩).err ≠ none ∧
    (apiServerRepoSaveBulk [dirtyServer] ⟨none, 500⟩).servers.map Server.isModified
      = [false] := by
  refine ⟨rfl, by decide, rfl, by decide, rfl⟩

/-- C4 amended: in both Save and SaveBulk, UnmarkModifiedFlag is invoked
unconditionally before the flush request, so the dirty flags of every saved
server are cleared whether the flush succeeds or fails. -/
theorem save_unmarks_unconditionally (s : Server) (resp : APIResponse)
    (servers : List Server) :
    (apiServerRepoSave s resp).server.isModified = false ∧
    (∀ x ∈ (apiServerRepoSaveBulk servers resp).servers, x.isModified = false) := by
  constructor
  · rfl
  · intro x hx
    rcases List.mem_map.mp hx with ⟨y, -, hy⟩
    rw [← hy]
    rfl

/-- Witness for the amended C4 at the concrete dirty server and a failing
response. -/
theorem save_unmarks_unconditionally_witness :
    (apiServerRepoSave dirtyServer ⟨none, 500⟩).server.isModified = false ∧
    ((apiServerRepoSaveBulk [dirtyServer] ⟨none, 500⟩).servers.map
      Server.isModified) = [false] := by
  have h := save_unmarks_unconditionally dirtyServer ⟨none, 500⟩ [dirtyServer]
  refine ⟨h.1, ?_⟩
  have h2 := h.2 (dirtyServer.unmarkModifiedFlag) (by decide)
  simp only [apiServerRepoSaveBulk, List.map]
  rw [h2]

end GameapDaemon

namespace GameapDaemon

/-- Parsed API response body for one server (serverStruct in
internal/app/repositories/server_repository.go), after JSON decoding,
timestamp parsing and settings extraction. -/
structure ServerStruct where
  vars : List (String × String)
  forceStopCommand : String
  dir : String
  lastProcessCheck : Int
  name : String
  uuid : String
  uuidShort : String
  restartCommand : String
  stopCommand : String
  ip : String
  startCommand : String
  updatedAt : Int
  rconPassword : String
  user : String
  game : String
  gameMod : String
  settings : List (String × String)
  connectPort : Int
  id : Int
  installStatus : Int
  rconPort : Int
  queryPort : Int
  enabled : Bool
  processActive : Bool
  blocked : Bool
deriving DecidableEq

/-- Embedding of the merge in apiServerRepo.FindByID for a server already in
the api cache: installationStatus is replaced from the API only when its
dirty flag is clear and the values differ; processActive together with
lastStatusCheck is replaced from the API only when the status flag is clear
and processActive differs; every other field is overwritten from the API by
server.Set, which leaves the id and the dirty flags untouched. -/
def mergeServer (server : Server) (srv : ServerStruct) : Server :=
  let installationStatus :=
    if server.modifiedInstallationStatus = false ∧
        server.installationStatus ≠ srv.installStatus
    then srv.installStatus else server.installationStatus
  let statusPair :=
    if server.modifiedStatus = false ∧ server.processActive ≠ srv.processActive
    then (srv.processActive, srv.lastProcessCheck)
    else (server.processActive, server.lastStatusCheck)
  { server with
    enabled := srv.enabled,
    installationStatus := installationStatus,
    blocked := srv.blocked,
    name := srv.name,
    uuid := srv.uuid,
    uuidShort := srv.uuidShort,
    game := srv.game,
    gameMod := srv.gameMod,
    ip := srv.ip,
    connectPort := srv.connectPort,
    queryPort := srv.queryPort,
    rconPort := srv.rconPort,
    rconPassword := srv.rconPassword,
    dir := srv.dir,
    user := srv.user,
    startCommand := srv.startCommand,
    stopCommand := srv.stopCommand,
    forceStopCommand := srv.forceStopCommand,
    restartCommand := srv.restartCommand,
    processActive := statusPair.1,
    lastStatusCheck := statusPair.2,
    vars := srv.vars,
    settings := srv.settings,
    updatedAt := srv.updatedAt }

/-- Embedding of domain.NewServer as invoked for a server not yet in the api
cache: all fields from the API body, both dirty flags clear. -/
def serverFromStruct (srv : ServerStruct) : Server :=
  { id := srv.id, enabled := srv.enabled, installationStatus := srv.installStatus,
    blocked := srv.blocked, name := srv.name, uuid := srv.uuid,
    uuidShort := srv.uuidShort, game := srv.game, gameMod := srv.gameMod,
    ip := srv.ip, connectPort := srv.connectPort, queryPort := srv.queryPort,
    rconPort := srv.rconPort, rconPassword := srv.rconPassword, dir := srv.dir,
    user := srv.user, startCommand := srv.startCommand,
    stopCommand := srv.stopCommand, forceStopCommand := srv.forceStopCommand,
    restartCommand := srv.restartCommand, processActive := srv.processActive,
    lastStatusCheck := srv.lastProcessCheck, vars := srv.vars,
    settings := srv.settings, updatedAt := srv.updatedAt,
    modifiedInstallationStatus := false, modifiedStatus := false }

/-- Lookup in an association list keyed by server id (sync.Map Load). -/
def lookupEntry {α : Type} : List (Int × α) → Int → Option α
  | [], _ => none
  | (k0, v0) :: rest, k => if k0 = k then some v0 else lookupEntry rest k

/-- Store in an association list keyed by server id (sync.Map Store). -/
def storeEntry {α : Type} : List (Int × α) → Int → α → List (Int × α)
  | [], k, v => [(k, v)]
  | (k0, v0) :: rest, k, v =>
    if k0 = k then (k, v) :: rest else (k0, v0) :: storeEntry rest k v

/-- Embedding of apiServerRepo.FindByID given the decoded API response: a
transport or decode error propagates, a 404 yields no server, and otherwise
the body is merged into the cached server or a fresh server is built and
cached. -/
def apiFindByID (api : List (Int × Server))
    (resp : Except String (Option ServerStruct)) :
    Except String (Option Server × List (Int × Server)) :=
  match resp with
  | Except.error e => Except.error e
  | Except.ok none => Except.ok (none, api)
  | Except.ok (some srv) =>
    match lookupEntry api srv.id with
    | some server =>
      let merged := mergeServer server srv
      Except.ok (some merged, storeEntry api srv.id merged)
    | none =>
      let fresh := serverFromStruct srv
      Except.ok (some fresh, storeEntry api srv.id fresh)

/-- The caches of ServerRepository: the outer server map, the lastUpdated
map and the inner api-repo server map. -/
structure RepoState where
  servers : List (Int × Server)
  lastUpdated : List (Int × Nat)
  apiServers : List (Int × Server)
deriving DecidableEq

/-- Cache TTL from internal/app/repositories/server_repository.go, in
seconds. -/
def serverCacheTTL : Nat := 10

/-- Result of ServerRepository.FindByID: the returned server, the updated
caches, and whether the API was consulted. -/
structure FindOutcome where
  server : Option Server
  state : RepoState
  refetched : Bool
deriving DecidableEq

/-- The fetch-and-store path of ServerRepository.FindByID: consult the api
repo; when a server comes back, record lastUpdated at the current time and
store the server in the outer map. -/
def findByIDFetch (st : RepoState) (id : Int) (now : Nat)
    (resp : Except String (Option ServerStruct)) : Except String FindOutcome :=
  match apiFindByID st.apiServers resp with
  | Except.error e => Except.error e
  | Except.ok (none, api2) =>
    Except.ok { server := none, state := { st with apiServers := api2 },
                refetched := true }
  | Except.ok (some s, api2) =>
    Except.ok
      { server := some s,
        state :=
          { servers := storeEntry st.servers id s,
            lastUpdated := storeEntry st.lastUpdated id now,
            apiServers := api2 },
        refetched := true }

/-- Embedding of ServerRepository.FindByID: a cache miss fetches from the
API; a cache hit refetches only when a lastUpdated entry exists, is older
than the TTL, and the server is not locally dirty; otherwise the cached
server is returned unchanged. -/
def findByIDRepo (st : RepoState) (id : Int) (now : Nat)
    (resp : Except String (Option ServerStruct)) : Except String FindOutcome :=
  match lookupEntry st.servers id with
  | none => findByIDFetch st id now resp
  | some server =>
    match lookupEntry st.lastUpdated id with
    | some lu =>
      if lu + serverCacheTTL < now ∧ server.isModified = false then
        findByIDFetch st id now resp
      else
        Except.ok { server := some server,
                    state := { st with servers := storeEntry st.servers id server },
                    refetched := false }
    | none =>
      Except.ok { server := some server,
                  state := { st with servers := storeEntry st.servers id server },
                  refetched := false }

end GameapDaemon


namespace GameapDaemon

/-- C9 amended: FindByID returns the cached server without consulting the
API whenever it is cached and locally dirty; a refetch happens only when the
cache entry is absent, or a lastUpdated entry exists that is older than the
10-second TTL while the server is not dirty; and the refetch merge keeps the
dirty-tracked fields local and overwrites the other fields from the API,
except that lastStatusCheck is taken from the API only when the status flag
is clear and processActive differs from the API value — otherwise it keeps
its local value. -/
theorem findByID_cache_and_merge (st : RepoState) (id : Int) (now : Nat)
    (resp : Except String (Option ServerStruct)) :
    (∀ s, lookupEntry st.servers id = some s → s.isModified = true →
      findByIDRepo st id now resp =
        Except.ok { server := some s,
                    state := { st with servers := storeEntry st.servers id s },
                    refetched := false }) ∧
    (∀ out, findByIDRepo st id now resp = Except.ok out → out.refetched = true →
      lookupEntry st.servers id = none ∨
      (∃ s lu, lookupEntry st.servers id = some s ∧
        lookupEntry st.lastUpdated id = some lu ∧
        lu + serverCacheTTL < now ∧ s.isModified = false)) ∧
    (∀ server srv,
      ((mergeServer server srv).id = server.id ∧
       (mergeServer server srv).modifiedInstallationStatus =
         server.modifiedInstallationStatus ∧
       (mergeServer server srv).modifiedStatus = server.modifiedStatus) ∧
      (server.modifiedInstallationStatus = true →
        (mergeServer server srv).installationStatus = server.installationStatus) ∧
      (server.modifiedInstallationStatus = false →
        (mergeServer server srv).installationStatus = srv.installStatus) ∧
      (server.modifiedStatus = true →
        (mergeServer server srv).processActive = server.processActive ∧
        (mergeServer server srv).lastStatusCheck = server.lastStatusCheck) ∧
      (server.modifiedStatus = false →
        (mergeServer server srv).processActive = srv.processActive ∧
        (server.processActive ≠ srv.processActive →
          (mergeServer server srv).lastStatusCheck = srv.lastProcessCheck) ∧
        (server.processActive = srv.processActive →
          (mergeServer server srv).lastStatusCheck = server.lastStatusCheck)) ∧
      ((mergeServer server srv).enabled = srv.enabled ∧
       (mergeServer server srv).blocked = srv.blocked ∧
       (mergeServer server srv).name = srv.name ∧
       (mergeServer server srv).uuid = srv.uuid ∧
       (mergeServer server srv).uuidShort = srv.uuidShort ∧
       (mergeServer server srv).game = srv.game ∧
       (mergeServer server srv).gameMod = srv.gameMod ∧
       (mergeServer server srv).ip = srv.ip ∧
       (mergeServer server srv).connectPort = srv.connectPort ∧
       (mergeServer server srv).queryPort = srv.queryPort ∧
       (mergeServer server srv).rconPort = srv.rconPort ∧
       (mergeServer server srv).rconPassword = srv.rconPassword ∧
       (mergeServer server srv).dir = srv.dir ∧
       (mergeServer server srv).user = srv.user ∧
       (mergeServer server srv).startCommand = srv.startCommand ∧
       (mergeServer server srv).stopCommand = srv.stopCommand ∧
       (mergeServer server srv).forceStopCommand = srv.forceStopCommand ∧
       (mergeServer server srv).restartCommand = srv.restartCommand ∧
       (mergeServer server srv).vars = srv.vars ∧
       (mergeServer server srv).settings = srv.settings ∧
       (mergeServer server srv).updatedAt = srv.updatedAt)) := by
  refine ⟨?_, ?_, ?_⟩
  · intro s hs hmod
    cases hlu : lookupEntry st.lastUpdated id with
    | none => simp [findByIDRepo, hs, hlu]
    | some lu => simp [findByIDRepo, hs, hlu, hmod]
  · intro out hout href
    cases hs : lookupEntry st.servers id with
    | none => exact Or.inl rfl
    | some s =>
      cases hlu : lookupEntry st.lastUpdated id with
      | none =>
        simp only [findByIDRepo, hs, hlu] at hout
        have heq := Except.ok.inj hout
        rw [← heq] at href
        simp at href
      | some lu =>
        by_cases hcond : lu + serverCacheTTL < now ∧ s.isModified = false
        · exact Or.inr ⟨s, lu, rfl, rfl, hcond.1, hcond.2⟩
        · simp only [findByIDRepo, hs, hlu, if_neg hcond] at hout
          have heq := Except.ok.inj hout
          rw [← heq] at href
          simp at href
  · intro server srv
    refine ⟨⟨rfl, rfl, rfl⟩, ?_, ?_, ?_, ?_, ?_⟩
    · intro hmi
      simp [mergeServer, hmi]
    · intro hmi
      by_cases hne : server.installationStatus = srv.installStatus
      · simp [mergeServer, hmi, hne]
      · simp [mergeServer, hmi, hne]
    · intro hms
      constructor <;> simp [mergeServer, hms]
    · intro hms
      by_cases hpa : server.processActive = srv.processActive
      · exact ⟨by simp [mergeServer, hms, hpa], fun h => absurd hpa h,
          fun _ => by simp [mergeServer, hms, hpa]⟩
      · exact ⟨by simp [mergeServer, hms, hpa], fun _ => by simp [mergeServer, hms, hpa],
          fun h => absurd h hpa⟩
    · simp [mergeServer]

/-- A clean cached server whose processActive agrees with the API response
while the check timestamps differ. -/
def cachedCleanServer : Server :=
  { id := 1, enabled := true, installationStatus := 1, blocked := false,
    name := "srv", uuid := "u", uuidShort := "us", game := "g", gameMod := "gm",
    ip := "127.0.0.1", connectPort := 27015, queryPort := 27016, rconPort := 27017,
    rconPassword := "", dir := "d", user := "gameap",
    startCommand := "", stopCommand := "", forceStopCommand := "", restartCommand := "",
    processActive := true, lastStatusCheck := 5, vars := [], settings := [],
    updatedAt := 0, modifiedInstallationStatus := false, modifiedStatus := false }

/-- API body for the same server reporting the same processActive but a
different last_process_check. -/
def apiBodySameActive : ServerStruct :=
  { vars := [], forceStopCommand := "", dir := "d", lastProcessCheck := 99,
    name := "srv", uuid := "u", uuidShort := "us", restartCommand := "",
    stopCommand := "", ip := "127.0.0.1", startCommand := "", updatedAt := 3,
    rconPassword := "", user := "gameap", game := "g", gameMod := "gm",
    settings := [], connectPort := 27015, id := 1, installStatus := 1,
    rconPort := 27017, queryPort := 27016, enabled := true,
    processActive := true, blocked := false }

/-- Caches holding the clean server with a stale lastUpdated entry. -/
def staleCleanState : RepoState :=
  { servers := [(1, cachedCleanServer)], lastUpdated := [(1, 0)],
    apiServers := [(1, cachedCleanServer)] }

/-- C9 counterexample: the cached server is not dirty and a refetch merge
happens, yet the non-dirty field lastStatusCheck keeps its local value 5
instead of being overwritten with the API value 99 — the merge copies
last_process_check only when processActive changes, refuting the claim that
every non-dirty field is overwritten from the API. -/
theorem findByID_merge_keeps_clean_check_time :
    cachedCleanServer.isModified = false ∧
    apiBodySameActive.lastProcessCheck = 99 ∧
    findByIDRepo staleCleanState 1 20 (Except.ok (some apiBodySameActive)) =
      Except.ok
        { server := some (mergeServer cachedCleanServer apiBodySameActive),
          state :=
            { servers := [(1, mergeServer cachedCleanServer apiBodySameActive)],
              lastUpdated := [(1, 20)],
              apiServers := [(1, mergeServer cachedCleanServer apiBodySameActive)] },
          refetched := true } ∧
    (mergeServer cachedCleanServer apiBodySameActive).lastStatusCheck = 5 := by
  refine ⟨rfl, rfl, rfl, rfl⟩

/-- The same server with a dirty status flag, for the witness. -/
def cachedDirtyServer : Server :=
  { cachedCleanServer with modifiedStatus := true }

/-- Caches holding the dirty server with the same stale lastUpdated
entry. -/
def staleDirtyState : RepoState :=
  { servers := [(1, cachedDirtyServer)], lastUpdated := [(1, 0)],
    apiServers := [(1, cachedDirtyServer)] }

/-- Witness for the amended C9: the dirty cached server is returned without
a refetch, and at the same time a merge on the dirty server keeps
processActive local. -/
theorem findByID_cache_and_merge_witness :
    findByIDRepo staleDirtyState 1 20 (Except.ok (some apiBodySameActive)) =
      Except.ok
        { server := some cachedDirtyServer,
          state := { staleDirtyState with
                     servers := storeEntry staleDirtyState.servers 1 cachedDirtyServer },
          refetched := false } ∧
    (mergeServer cachedDirtyServer apiBodySameActive).processActive =
      cachedDirtyServer.processActive := by
  have h := findByID_cache_and_merge staleDirtyState 1 20
    (Except.ok (some apiBodySameActive))
  refine ⟨h.1 cachedDirtyServer (by decide) (by decide), ?_⟩
  exact ((h.2.2 cachedDirtyServer apiBodySameActive).2.2.2.1 rfl).1

end GameapDaemon
